import Mathlib

/-!
Shallow embedding of src/src/views/screen/canvas-main/ruler/index.ts
(the ruler / guide-line subsystem of datav-vue), together with theorems
settling the specification claims about it.

Device-pixel quantities are modelled as rationals (JS numbers on the
integer and small-decimal values this code manipulates behave exactly);
Math.floor is Int.floor, Math.round is `round` (both round half towards
positive infinity), and toFixed(3)+parseFloat is rounding to a multiple
of 1/1000.
-/

namespace Ruler

/-- RulerOption (source lines 5-20).  Colour and font fields are carried
as opaque-to-the-claims strings; numeric fields are exact rationals. -/
structure RulerOption where
  directionTB : Bool        -- direction: 'TB' when true, 'LR' when false
  rulerWidth : ℚ
  rulerHeight : ℚ
  bgColor : String
  fontFamily : String
  fontSize : String
  fontColor : String
  strokeStyle : String
  lineWidth : ℚ
  enableMouseTracking : Bool
  enableToolTip : Bool
  scale : ℚ
  offset : ℚ
  ratio : ℚ
  deriving Repr, DecidableEq

/-- Default options of RulerBuilder (source lines 160-175). -/
def defaultOptions : RulerOption where
  directionTB := true
  rulerWidth := 1000
  rulerHeight := 20
  bgColor := "#0e1013"
  fontFamily := "sans-serif"
  fontSize := "10px"
  fontColor := "#90a0ae"
  strokeStyle := "rgba(161, 174, 179, 0.8)"
  lineWidth := 1/2
  enableMouseTracking := true
  enableToolTip := true
  scale := 1
  offset := 40
  ratio := 2

/-- indicatorLineWidth field of RulerBuilder (source line 149). -/
def indicatorLineWidth : ℚ := 1

/-! ## CoordinateMapper: getPos (lines 266-282) and getDistanceByCoor (284-287) -/

/-- The distance computed by getPos before the coordinate conversion:
`distance = (e.clientX - parentOffset) - rulerHeight + indicatorLineWidth`.
`devicePos` stands for the pointer position relative to the container,
i.e. `e.clientX - el.parentElement.offsetLeft` (resp. Y/Top for LR). -/
def getPosDistance (opts : RulerOption) (devicePos : ℚ) : ℚ :=
  devicePos - opts.rulerHeight + indicatorLineWidth

/-- The second stage of getPos: `coor = Math.floor((distance - offset) / scale)`
(source line 277), mapping an adjusted distance to a logical coordinate. -/
def coorOfDistance (opts : RulerOption) (distance : ℚ) : ℤ :=
  ⌊(distance - opts.offset) / opts.scale⌋

/-- Full device-to-logical mapping of getPos: the `coor` field of its result. -/
def getPosCoor (opts : RulerOption) (devicePos : ℚ) : ℤ :=
  coorOfDistance opts (getPosDistance opts devicePos)

/-- parseFloat((x).toFixed(3)): round to the nearest multiple of 1/1000
(ties towards positive infinity, as Math-style rounding does). -/
def round3 (x : ℚ) : ℚ :=
  (round (x * 1000) : ℚ) / 1000

/-- getDistanceByCoor (source lines 284-287):
`parseFloat((coor * scale + offset).toFixed(3))`. -/
def getDistanceByCoor (opts : RulerOption) (coor : ℤ) : ℚ :=
  round3 ((coor : ℚ) * opts.scale + opts.offset)

/-! ## TickRenderer: drawPoints (source lines 232-264) -/

/-- Truncation towards zero, as the implicit division inside the JS `%`
operator performs. -/
def qTrunc (q : ℚ) : ℤ :=
  if 0 ≤ q then ⌊q⌋ else ⌈q⌉

/-- The JS remainder operator `%` on numbers: `a - b * trunc(a / b)`. -/
def jsMod (a b : ℚ) : ℚ :=
  a - b * (qTrunc (a / b) : ℚ)

/-- What the loop body of drawPoints decides for one position: `tickLen`
is the y coordinate the tick line is drawn up to (0 = full height), and
`label` is the number to print (source keeps -1 when no label). -/
structure TickDraw where
  tickLen : ℚ
  label : ℤ
  deriving Repr, DecidableEq

/-- One iteration of the drawPoints loop (source lines 241-263) for a ruler
of the given height: `delta = pos - offset`; negative delta is skipped;
tier selection by `delta % 50 / % 25 / % 5`; the tick is emitted only when
`tickLen >= 0`.  Returns `none` when the iteration draws nothing. -/
def tickAt (height offset scale : ℚ) (pos : ℤ) : Option TickDraw :=
  let delta : ℚ := (pos : ℚ) - offset
  if delta < 0 then none
  else
    let p : ℤ × ℚ :=
      if jsMod delta 50 = 0 then (⌊delta / scale⌋, 0)
      else if jsMod delta 25 = 0 then (-1, height / 1.5)
      else if jsMod delta 5 = 0 then (-1, height / 1.2)
      else (-1, -1)
    if 0 ≤ p.2 then some ⟨p.2, p.1⟩ else none

/-- A drawing primitive issued against the 2d context. -/
inductive DrawCmd where
  | line (x1 y1 x2 y2 : ℚ)
  | text (value : ℤ) (x y : ℚ)
  deriving Repr, DecidableEq

/-- The drawing commands one loop iteration issues: `moveTo(pos+0.5, height+0.5)`
/ `lineTo(pos+0.5, tickLen)` as a line, plus `fillText(label, pos+2.5, height/1.5)`
when `label > -1` (source lines 256-262). -/
def cmdsAt (height offset scale : ℚ) (pos : ℤ) : List DrawCmd :=
  match tickAt height offset scale pos with
  | none => []
  | some t =>
      DrawCmd.line ((pos : ℚ) + 0.5) (height + 0.5) ((pos : ℚ) + 0.5) t.tickLen ::
        (if t.label > -1 then [DrawCmd.text t.label ((pos : ℚ) + 2.5) (height / 1.5)] else [])

/-- The whole drawPoints loop: positions 0, 1, ..., width. -/
def drawPoints (height offset scale : ℚ) (width : ℤ) : List DrawCmd :=
  if width < 0 then []
  else (List.range (width.toNat + 1)).flatMap fun n => cmdsAt height offset scale (n : ℤ)

/-- The label fillText prints at a position, if any: present exactly when
the iteration draws a tick whose label survived the `label > -1` test. -/
def labelAt (height offset scale : ℚ) (pos : ℤ) : Option ℤ :=
  match tickAt height offset scale pos with
  | some t => if t.label > -1 then some t.label else none
  | none => none

/-! ## GuideLine (source lines 26-125) -/

/-- A mouse event as the handlers consume it. -/
structure MouseEvt where
  clientX : ℚ
  clientY : ℚ
  deriving Repr, DecidableEq

/-- The three listeners the GuideLine constructor attaches to its node
(source lines 37-39).  Attach and detach both use the bare method
references `this.mousedown` / `this.stopMoving` / `this.dblclick`, so the
identities match and detaching works. -/
inductive GEvt where
  | mousedown
  | mouseup
  | dblclick
  deriving Repr, DecidableEq

/-- The environment the drag closure captures at startMoving time
(source lines 48-59): the pointer offsets and the container / guide
extents read from the DOM. -/
structure DragEnv where
  diffX : ℚ
  diffY : ℚ
  cWi : ℚ
  cHe : ℚ
  eWi : ℚ
  eHe : ℚ
  deriving Repr, DecidableEq

/-- The tooltip text written into `dataset.tip`: which axis label it
carries and the rounded value. -/
structure Tip where
  isY : Bool
  value : ℤ
  deriving Repr, DecidableEq

/-- The observable state of one GuideLine and its DOM node. -/
structure GuideState where
  left : ℚ                       -- parsed style.left (0 when unset)
  top : ℚ                        -- parsed style.top
  dragged : Bool                 -- class rul_line_dragged present
  tooltipShown : Bool            -- class rul_tooltip present
  tip : Option Tip               -- dataset.tip
  listeners : List GEvt          -- listeners attached to the guide node
  docMouseMove : Option DragEnv  -- document.onmousemove slot (the closure)
  elCursor : Bool                -- container cursor styled for resizing
  lineCursor : Bool              -- guide node cursor styled for resizing
  inTree : Bool                  -- node has a parentNode
  display : Bool                 -- style.display is block (true) / none
  deriving Repr, DecidableEq

/-- updateToolTip (source lines 85-93): the Y branch is taken whenever `y`
is truthy (non-zero); the value is `Math.round((p - rulerHeight - 1 - offset) * scale)`. -/
def updateToolTip (opts : RulerOption) (x y : ℚ) : Tip :=
  if y ≠ 0 then
    ⟨true, round ((y - opts.rulerHeight - 1 - opts.offset) * opts.scale)⟩
  else
    ⟨false, round ((x - opts.rulerHeight - 1 - opts.offset) * opts.scale)⟩

/-- The closure installed on document.onmousemove (source lines 60-66):
clamp the pointer position into the container, move the node, update the
tooltip text with the clamped coordinates. -/
def onDocMouseMove (opts : RulerOption) (env : DragEnv) (s : GuideState)
    (evt : MouseEvt) : GuideState :=
  let aX := min (max (evt.clientX - env.diffX) 0) (env.cWi - env.eWi)
  let aY := min (max (evt.clientY - env.diffY) 0) (env.cHe - env.eHe)
  { s with left := aX, top := aY, tip := some (updateToolTip opts aX aY) }

/-- showToolTip (source lines 78-83): adds the tooltip class only when
enableToolTip is set. -/
def showToolTip (opts : RulerOption) (s : GuideState) : GuideState :=
  if opts.enableToolTip then { s with tooltipShown := true } else s

/-- startMoving (source lines 44-68): mark the node dragged, style the
cursors, install the document-level move closure capturing the current
geometry, then showToolTip.  `cWi cHe eWi eHe` are the container and
guide extents the DOM reports at this moment. -/
def startMoving (opts : RulerOption) (cWi cHe eWi eHe : ℚ) (s : GuideState)
    (e : MouseEvt) : GuideState :=
  showToolTip opts
    { s with dragged := true, elCursor := true, lineCursor := true,
             docMouseMove := some ⟨e.clientX - s.left, e.clientY - s.top, cWi, cHe, eWi, eHe⟩ }

/-- stopMoving (source lines 70-76): clear the cursors, null the
document.onmousemove slot (a plain assignment, so repeating it is a
silent no-op), hide the tooltip, drop the dragged class. -/
def stopMoving (s : GuideState) : GuideState :=
  { s with elCursor := false, lineCursor := false, docMouseMove := none,
           tooltipShown := false, dragged := false }

/-- removeChild on the node via its parent: errors when the node has no
parent, exactly the call the `parentNode &&` guard protects. -/
def removeChildFromParent (s : GuideState) : Except String GuideState :=
  if s.inTree then Except.ok { s with inTree := false }
  else Except.error "removeChild called on a node without a parent"

/-- destroy (source lines 117-124): stopMoving, detach the three
listeners (removeEventListener of an absent listener is a silent no-op,
modelled by List.erase), then `parentNode && parentNode.removeChild`. -/
def destroy (s : GuideState) : Except String GuideState :=
  let s1 := stopMoving s
  let s2 := { s1 with
    listeners := ((s1.listeners.erase GEvt.mousedown).erase GEvt.mouseup).erase GEvt.dblclick }
  if s2.inTree then removeChildFromParent s2 else Except.ok s2

/-- A fresh guide node as constructGuide builds it (source lines 322-342):
positioned by style.left for a TB ruler and style.top for LR, appended to
the lines wrapper, with nothing else set. -/
def newGuideNode (distance : ℚ) (directionTB : Bool) : GuideState where
  left := if directionTB then distance else 0
  top := if directionTB then 0 else distance
  dragged := false
  tooltipShown := false
  tip := none
  listeners := []
  docMouseMove := none
  elCursor := false
  lineCursor := false
  inTree := true
  display := true

/-- The GuideLine constructor (source lines 29-42): attach the mousedown,
mouseup and dblclick listeners to the node, then immediately
`startMoving(event)` with the originating pointer-down event. -/
def guideLineConstructor (opts : RulerOption) (cWi cHe eWi eHe : ℚ)
    (s : GuideState) (e : MouseEvt) : GuideState :=
  startMoving opts cWi cHe eWi eHe
    { s with listeners := s.listeners ++ [GEvt.mousedown, GEvt.mouseup, GEvt.dblclick] } e

/-! ## RulerBuilder (source lines 142-390)

Canvas listeners are attached with `this.method.bind(this)`; every call of
`bind` creates a fresh function object, so listener identities are modelled
as natural numbers drawn from a per-builder counter. -/

/-- The observable state of one RulerBuilder. -/
structure BuilderState where
  options : RulerOption
  elOffsetW : ℚ              -- el.offsetWidth as the host lays it out
  elOffsetH : ℚ              -- el.offsetHeight
  rulerW : ℚ                 -- this.ruler.width
  rulerH : ℚ                 -- this.ruler.height
  guides : List GuideState   -- this.guides
  looseNodes : List GuideState -- .ruler-line nodes appended to the lines wrapper
  enterListeners : List ℕ    -- mouseenter listeners attached to the canvas
  downListeners : List ℕ     -- mousedown listeners attached to the canvas
  bindCounter : ℕ            -- next fresh identity a .bind(this) call yields
  elAttached : Bool          -- the container is still in the host tree
  deriving Repr, DecidableEq

/-- The primary-axis extent of the host container: offsetWidth for a TB
ruler, offsetHeight for LR (source lines 189-191 and 355-357). -/
def hostExtent (st : BuilderState) : ℚ :=
  if st.options.directionTB then st.elOffsetW else st.elOffsetH

/-- constructRuler (source lines 185-209): compute the geometry, create
the canvas and draw (pure), then attach mouseenter and mousedown
listeners with two freshly bound methods. -/
def constructRuler (st : BuilderState) : BuilderState :=
  { st with
    rulerW := max (hostExtent st) st.options.rulerWidth,
    rulerH := st.options.rulerHeight,
    enterListeners := st.enterListeners ++ [st.bindCounter],
    downListeners := st.downListeners ++ [st.bindCounter + 1],
    bindCounter := st.bindCounter + 2 }

/-- constructGuide (source lines 319-346): build a .ruler-line node at the
pointer distance and append it to the lines wrapper.  The
`new GuideLine(el, guide, options, e)` and `this.guides.push(guideLine)`
lines are commented out in the source (lines 344-345), so no GuideLine is
constructed and the guides collection is left untouched. -/
def constructGuide (st : BuilderState) (devicePos : ℚ) : BuilderState :=
  let d := getPosDistance st.options devicePos
  { st with looseNodes := st.looseNodes ++ [newGuideNode d st.options.directionTB] }

/-- setSize (source lines 348-365): overwrite rulerWidth, rulerHeight and
scale in the options, recompute the geometry, recreate the canvas and
redraw.  No validation of the arguments is performed. -/
def setSize (st : BuilderState) (w h s : ℚ) : BuilderState :=
  let options := { st.options with rulerWidth := w, rulerHeight := h, scale := s }
  let st1 := { st with options := options }
  { st1 with rulerW := max (hostExtent st1) options.rulerWidth, rulerH := options.rulerHeight }

/-- setScale (source lines 367-370): overwrite options.scale and redraw.
No validation of the argument is performed. -/
def setScale (st : BuilderState) (scale : ℚ) : BuilderState :=
  { st with options := { st.options with scale := scale } }

/-- toggleGuide (source lines 372-375): show or hide every owned guide. -/
def toggleGuide (st : BuilderState) (visible : Bool) : BuilderState :=
  { st with guides := st.guides.map fun g => { g with display := visible } }

/-- clearGuides (source lines 377-380): run destroy on every owned guide
and empty the collection.  Destroyed guide nodes leave the tree; nodes in
the lines wrapper that are not in `guides` are untouched. -/
def clearGuides (st : BuilderState) : BuilderState :=
  { st with guides := [] }

/-- RulerBuilder.destroy (source lines 382-389): clearGuides, then two
removeEventListener calls whose arguments are `this.constructIndicator.bind(this)`
and `this.constructGuide.bind(this)` — fresh function objects, distinct
from the identities attached in constructRuler — then `el.remove()`. -/
def destroyBuilder (st : BuilderState) : BuilderState :=
  let s1 := clearGuides st
  { s1 with
    enterListeners := s1.enterListeners.erase s1.bindCounter,
    downListeners := s1.downListeners.erase (s1.bindCounter + 1),
    bindCounter := s1.bindCounter + 2,
    elAttached := false }

/-- A builder before constructRuler runs: default options merged with
nothing, no listeners, no guides, attached to the host. -/
def initialBuilder (elW elH : ℚ) : BuilderState where
  options := defaultOptions
  elOffsetW := elW
  elOffsetH := elH
  rulerW := 0
  rulerH := 0
  guides := []
  looseNodes := []
  enterListeners := []
  downListeners := []
  bindCounter := 0
  elAttached := true

/-- Every listener identity recorded on the canvas was produced by an
earlier bind call, hence is below the current counter.  This holds for
every state reachable from `initialBuilder`. -/
def listenersFresh (st : BuilderState) : Prop :=
  (∀ i ∈ st.enterListeners, i < st.bindCounter) ∧
    (∀ i ∈ st.downListeners, i < st.bindCounter)

/-- The option set of claim C1's concrete instance: scale 1, offset 40,
ruler thickness 0. -/
def c1opts : RulerOption :=
  { defaultOptions with rulerHeight := 0, scale := 1, offset := 40 }

/-- Options for the tooltip counterexample: thickness 0, offset 0, scale 2,
tooltips enabled. -/
def c6opts : RulerOption :=
  { defaultOptions with rulerHeight := 0, scale := 2, offset := 0 }

/-- Drag environment for the tooltip counterexample: drag started at the
origin of a 100 by 100 container with a zero-extent guide node. -/
def c6env : DragEnv := ⟨0, 0, 100, 100, 0, 0⟩

/-- Drag environment whose vertical play is zero (container height equals
guide height), so every move clamps y to 0 and the tooltip takes the X
branch — the situation every default TB-direction drag is in. -/
def c6envX : DragEnv := ⟨0, 0, 100, 0, 0, 0⟩

/-- A freshly constructed builder on an 800 by 600 host. -/
def builder0 : BuilderState := constructRuler (initialBuilder 800 600)

/-! ## Theorems -/

/-- C1 counterexample: with scale 1, offset 40 and thickness 0, getPos
maps device position 90 to logical coordinate 51, not 50 as the claim
states — the code adds indicatorLineWidth = 1 to the distance. -/
theorem C1_toLogical_90_ne_50 :
    getPosCoor c1opts 90 = 51 ∧ (51 : ℤ) ≠ 50 := by
  constructor
  · norm_num [getPosCoor, coorOfDistance, getPosDistance, indicatorLineWidth, c1opts,
      defaultOptions]
  · decide

/-- C1 amended: `toLogical(devicePos) = floor((devicePos − thickness − offset
+ indicatorLineWidth) / scale)` with indicatorLineWidth = 1; in particular,
with scale 1, offset 40, thickness 0, `toLogical(90) = 51`. -/
theorem C1_toLogical_formula :
    (∀ (opts : RulerOption) (devicePos : ℚ),
      getPosCoor opts devicePos =
        ⌊(devicePos - opts.rulerHeight - opts.offset + indicatorLineWidth) / opts.scale⌋) ∧
    getPosCoor c1opts 90 = 51 := by
  constructor
  · intro opts d
    unfold getPosCoor coorOfDistance getPosDistance
    congr 1
    ring
  · norm_num [getPosCoor, coorOfDistance, getPosDistance, indicatorLineWidth, c1opts,
      defaultOptions]

/-- C2 counterexample: with the default options (thickness 20, offset 40,
scale 1), composing getPos with getDistanceByCoor and getPos again does
not reproduce the logical coordinate: 90 maps to 31, getDistanceByCoor 31
is 71, and 71 maps to 12 — the full getPos re-subtracts the thickness
adjustment from a value that never contained it. -/
theorem C2_roundtrip_fails_through_getPos :
    getPosCoor defaultOptions (getDistanceByCoor defaultOptions (getPosCoor defaultOptions 90)) ≠
      getPosCoor defaultOptions 90 := by
  have h1 : getPosCoor defaultOptions 90 = 31 := by
    norm_num [getPosCoor, coorOfDistance, getPosDistance, indicatorLineWidth, defaultOptions]
  have h2 : getDistanceByCoor defaultOptions 31 = 71 := by
    norm_num [getDistanceByCoor, round3, round_eq, defaultOptions]
  have h3 : getPosCoor defaultOptions 71 = 12 := by
    norm_num [getPosCoor, coorOfDistance, getPosDistance, indicatorLineWidth, defaultOptions]
  rw [h1, h2, h3]
  decide

/-- C2 amended: the round trip holds for the distance-to-coordinate stage
of getPos (`coor = floor((distance − offset) / scale)`, source line 277)
composed with getDistanceByCoor, whenever scale is positive and scale and
offset are exact multiples of 1/1000 (so that toFixed(3) is lossless):
`coorOf(toDevice(coorOf(x))) = coorOf(x)` for every distance x. -/
theorem C2_roundtrip_coorOfDistance (opts : RulerOption) (x : ℚ) (a b : ℤ)
    (hs : 0 < opts.scale) (ha : opts.scale = (a : ℚ) / 1000)
    (hb : opts.offset = (b : ℚ) / 1000) :
    coorOfDistance opts (getDistanceByCoor opts (coorOfDistance opts x)) =
      coorOfDistance opts x := by
  set c := coorOfDistance opts x with hc
  have h1 : (0 : ℚ) < (a : ℚ) / 1000 := ha ▸ hs
  have haQ : (0 : ℚ) < (a : ℚ) := by
    have : (a : ℚ) = ((a : ℚ) / 1000) * 1000 := by ring
    rw [this]
    exact mul_pos h1 (by norm_num)
  have haQ0 : (a : ℚ) ≠ 0 := ne_of_gt haQ
  have hdist : getDistanceByCoor opts c = ((c * a + b : ℤ) : ℚ) / 1000 := by
    unfold getDistanceByCoor round3
    have harg : ((c : ℚ) * opts.scale + opts.offset) * 1000 = ((c * a + b : ℤ) : ℚ) := by
      rw [ha, hb]
      push_cast
      field_simp
    rw [harg, round_intCast]
  rw [hdist]
  unfold coorOfDistance
  have hinner : (((c * a + b : ℤ) : ℚ) / 1000 - opts.offset) / opts.scale = (c : ℚ) := by
    rw [ha, hb]
    push_cast
    field_simp
  rw [hinner, Int.floor_intCast]

/-- C2 witness: the round trip at the default options and distance 90. -/
theorem C2_roundtrip_coorOfDistance_witness :
    coorOfDistance defaultOptions
        (getDistanceByCoor defaultOptions (coorOfDistance defaultOptions 90)) =
      coorOfDistance defaultOptions 90 :=
  C2_roundtrip_coorOfDistance defaultOptions 90 1000 40000
    (by norm_num [defaultOptions]) (by norm_num [defaultOptions])
    (by norm_num [defaultOptions])

/-! Helper lemmas for the tick renderer. -/

theorem qTrunc_of_nonneg (q : ℚ) (h : 0 ≤ q) : qTrunc q = ⌊q⌋ := by
  simp [qTrunc, h]

/-- On a non-negative integer numerator and a natural divisor, the JS `%`
agrees with Int.emod. -/
theorem jsMod_intCast (n : ℤ) (m : ℕ) (hn : 0 ≤ n) :
    jsMod (n : ℚ) (m : ℚ) = ((n % (m : ℤ) : ℤ) : ℚ) := by
  unfold jsMod
  rcases Nat.eq_zero_or_pos m with hm | hm
  · subst hm
    simp
  · have hq : (0 : ℚ) ≤ (n : ℚ) / (m : ℚ) :=
      div_nonneg (by exact_mod_cast hn) (by positivity)
    rw [qTrunc_of_nonneg _ hq, Rat.floor_intCast_div_natCast]
    have hemod : n % (m : ℤ) = n - (m : ℤ) * (n / (m : ℤ)) := Int.emod_def n m
    rw [hemod]
    push_cast
    ring

theorem jsMod_eq_zero_iff (n : ℤ) (m : ℕ) (hn : 0 ≤ n) :
    jsMod (n : ℚ) (m : ℚ) = 0 ↔ (m : ℤ) ∣ n := by
  rw [jsMod_intCast n m hn, Int.cast_eq_zero]
  exact (Int.dvd_iff_emod_eq_zero).symm

theorem tickAt_skip (h offset scale : ℚ) (pos : ℤ) (hd : (pos : ℚ) - offset < 0) :
    tickAt h offset scale pos = none := by
  simp [tickAt, hd]

theorem tickAt_major (h offset scale : ℚ) (pos : ℤ)
    (hd : 0 ≤ (pos : ℚ) - offset) (h50 : jsMod ((pos : ℚ) - offset) 50 = 0) :
    tickAt h offset scale pos = some ⟨0, ⌊((pos : ℚ) - offset) / scale⌋⟩ := by
  have hd' : ¬((pos : ℚ) - offset < 0) := not_lt.mpr hd
  simp [tickAt, hd', h50]

theorem tickAt_medium (h offset scale : ℚ) (pos : ℤ)
    (hd : 0 ≤ (pos : ℚ) - offset) (hh : 0 ≤ h)
    (h50 : jsMod ((pos : ℚ) - offset) 50 ≠ 0) (h25 : jsMod ((pos : ℚ) - offset) 25 = 0) :
    tickAt h offset scale pos = some ⟨h / 1.5, -1⟩ := by
  have hd' : ¬((pos : ℚ) - offset < 0) := not_lt.mpr hd
  have hlen : (0 : ℚ) ≤ h / 1.5 := by positivity
  simp [tickAt, hd', h50, h25, hlen]

theorem tickAt_minor (h offset scale : ℚ) (pos : ℤ)
    (hd : 0 ≤ (pos : ℚ) - offset) (hh : 0 ≤ h)
    (h50 : jsMod ((pos : ℚ) - offset) 50 ≠ 0) (h25 : jsMod ((pos : ℚ) - offset) 25 ≠ 0)
    (h5 : jsMod ((pos : ℚ) - offset) 5 = 0) :
    tickAt h offset scale pos = some ⟨h / 1.2, -1⟩ := by
  have hd' : ¬((pos : ℚ) - offset < 0) := not_lt.mpr hd
  have hlen : (0 : ℚ) ≤ h / 1.2 := by positivity
  simp [tickAt, hd', h50, h25, h5, hlen]

theorem tickAt_none (h offset scale : ℚ) (pos : ℤ)
    (hd : 0 ≤ (pos : ℚ) - offset)
    (h50 : jsMod ((pos : ℚ) - offset) 50 ≠ 0) (h25 : jsMod ((pos : ℚ) - offset) 25 ≠ 0)
    (h5 : jsMod ((pos : ℚ) - offset) 5 ≠ 0) :
    tickAt h offset scale pos = none := by
  have hd' : ¬((pos : ℚ) - offset < 0) := not_lt.mpr hd
  simp [tickAt, hd', h50, h25, h5]

/-- C3: tier selection of drawPoints per position, exactly as the claim
orders it (50 before 25 before 5, nothing for negative delta or other
positions), plus the width 200 / offset 0 / scale 1 scenario: a tick at
every multiple of 5 and a label exactly at multiples of 50 with value
delta / scale = pos. -/
theorem C3_drawPoints_tiers :
    (∀ (h offset scale : ℚ) (pos : ℤ),
      ((pos : ℚ) - offset < 0 → cmdsAt h offset scale pos = []) ∧
      (0 ≤ (pos : ℚ) - offset → 0 < scale → 0 ≤ h →
        (jsMod ((pos : ℚ) - offset) 50 = 0 →
          cmdsAt h offset scale pos =
            [DrawCmd.line ((pos : ℚ) + 0.5) (h + 0.5) ((pos : ℚ) + 0.5) 0,
             DrawCmd.text ⌊((pos : ℚ) - offset) / scale⌋ ((pos : ℚ) + 2.5) (h / 1.5)]) ∧
        (jsMod ((pos : ℚ) - offset) 50 ≠ 0 → jsMod ((pos : ℚ) - offset) 25 = 0 →
          cmdsAt h offset scale pos =
            [DrawCmd.line ((pos : ℚ) + 0.5) (h + 0.5) ((pos : ℚ) + 0.5) (h / 1.5)]) ∧
        (jsMod ((pos : ℚ) - offset) 50 ≠ 0 → jsMod ((pos : ℚ) - offset) 25 ≠ 0 →
            jsMod ((pos : ℚ) - offset) 5 = 0 →
          cmdsAt h offset scale pos =
            [DrawCmd.line ((pos : ℚ) + 0.5) (h + 0.5) ((pos : ℚ) + 0.5) (h / 1.2)]) ∧
        (jsMod ((pos : ℚ) - offset) 50 ≠ 0 → jsMod ((pos : ℚ) - offset) 25 ≠ 0 →
            jsMod ((pos : ℚ) - offset) 5 ≠ 0 →
          cmdsAt h offset scale pos = []))) ∧
    (∀ pos : ℤ, 0 ≤ pos → pos ≤ 200 →
      ((tickAt 20 0 1 pos).isSome ↔ (5 : ℤ) ∣ pos) ∧
      labelAt 20 0 1 pos = if (50 : ℤ) ∣ pos then some pos else none) := by
  constructor
  · intro h offset scale pos
    constructor
    · intro hd
      simp [cmdsAt, tickAt_skip h offset scale pos hd]
    · intro hd hs hh
      refine ⟨?_, ?_, ?_, ?_⟩
      · intro h50
        have hlab : (0 : ℤ) ≤ ⌊((pos : ℚ) - offset) / scale⌋ :=
          Int.floor_nonneg.mpr (div_nonneg hd (le_of_lt hs))
        have hgt : ⌊((pos : ℚ) - offset) / scale⌋ > -1 := by omega
        simp [cmdsAt, tickAt_major h offset scale pos hd h50, hgt]
      · intro h50 h25
        simp [cmdsAt, tickAt_medium h offset scale pos hd hh h50 h25]
      · intro h50 h25 h5
        simp [cmdsAt, tickAt_minor h offset scale pos hd hh h50 h25 h5]
      · intro h50 h25 h5
        simp [cmdsAt, tickAt_none h offset scale pos hd h50 h25 h5]
  · intro pos hpos _
    have hd : (0 : ℚ) ≤ (pos : ℚ) - 0 := by
      simpa using (by exact_mod_cast hpos : (0 : ℚ) ≤ (pos : ℚ))
    have h50 := jsMod_eq_zero_iff pos 50 hpos
    have h25 := jsMod_eq_zero_iff pos 25 hpos
    have h5 := jsMod_eq_zero_iff pos 5 hpos
    push_cast at h50 h25 h5
    by_cases c50 : (50 : ℤ) ∣ pos
    · have hm : jsMod ((pos : ℚ) - 0) 50 = 0 := by
        rw [sub_zero]
        exact h50.mpr c50
      have heq : tickAt 20 0 1 pos = some ⟨0, pos⟩ := by
        have := tickAt_major 20 0 1 pos hd hm
        simpa using this
      have c5 : (5 : ℤ) ∣ pos := dvd_trans (by norm_num) c50
      have hgt : pos > -1 := by omega
      constructor
      · simp [heq, c5]
      · simp [labelAt, heq, hgt, c50]
    · by_cases c25 : (25 : ℤ) ∣ pos
      · have hm50 : jsMod ((pos : ℚ) - 0) 50 ≠ 0 := by
          rw [sub_zero]
          exact fun hz => c50 (h50.mp hz)
        have hm25 : jsMod ((pos : ℚ) - 0) 25 = 0 := by
          rw [sub_zero]
          exact h25.mpr c25
        have heq : tickAt 20 0 1 pos = some ⟨20 / 1.5, -1⟩ :=
          tickAt_medium 20 0 1 pos hd (by norm_num) hm50 hm25
        have c5 : (5 : ℤ) ∣ pos := dvd_trans (by norm_num) c25
        constructor
        · simp [heq, c5]
        · simp [labelAt, heq, c50]
      · by_cases c5 : (5 : ℤ) ∣ pos
        · have hm50 : jsMod ((pos : ℚ) - 0) 50 ≠ 0 := by
            rw [sub_zero]
            exact fun hz => c50 (h50.mp hz)
          have hm25 : jsMod ((pos : ℚ) - 0) 25 ≠ 0 := by
            rw [sub_zero]
            exact fun hz => c25 (h25.mp hz)
          have hm5 : jsMod ((pos : ℚ) - 0) 5 = 0 := by
            rw [sub_zero]
            exact h5.mpr c5
          have heq : tickAt 20 0 1 pos = some ⟨20 / 1.2, -1⟩ :=
            tickAt_minor 20 0 1 pos hd (by norm_num) hm50 hm25 hm5
          constructor
          · simp [heq, c5]
          · simp [labelAt, heq, c50]
        · have hm50 : jsMod ((pos : ℚ) - 0) 50 ≠ 0 := by
            rw [sub_zero]
            exact fun hz => c50 (h50.mp hz)
          have hm25 : jsMod ((pos : ℚ) - 0) 25 ≠ 0 := by
            rw [sub_zero]
            exact fun hz => c25 (h25.mp hz)
          have hm5 : jsMod ((pos : ℚ) - 0) 5 ≠ 0 := by
            rw [sub_zero]
            exact fun hz => c5 (h5.mp hz)
          have heq : tickAt 20 0 1 pos = none :=
            tickAt_none 20 0 1 pos hd hm50 hm25 hm5
          constructor
          · simp [heq, c5]
          · simp [labelAt, heq, c50]

/-- C3 witness: the scenario instance at position 100 (a multiple of 5,
so a tick is drawn) and the skipped-position branch at position -5 with
offset 0. -/
theorem C3_drawPoints_tiers_witness :
    ((tickAt 20 0 1 100).isSome ↔ (5 : ℤ) ∣ 100) ∧ cmdsAt 20 0 1 (-5) = [] :=
  ⟨(C3_drawPoints_tiers.2 100 (by norm_num) (by norm_num)).1,
   (C3_drawPoints_tiers.1 20 0 1 (-5)).1 (by norm_num)⟩

/-- Every state produced along a List.scanl satisfies P when the seed does
and every step re-establishes it. -/
theorem mem_scanl_imp {α β : Type} (f : β → α → β) (P : β → Prop)
    (hstep : ∀ b a, P (f b a)) :
    ∀ (l : List α) (b0 : β), P b0 → ∀ s ∈ List.scanl f b0 l, P s := by
  intro l
  induction l with
  | nil =>
      intro b0 h s hs
      rw [List.scanl] at hs
      simp at hs
      rwa [hs]
  | cons a l ih =>
      intro b0 h s hs
      rw [List.scanl] at hs
      rcases List.mem_cons.mp hs with rfl | hrest
      · exact h
      · exact ih (f b0 a) (hstep b0 a) s hrest

/-- C4: during a drag, after every pointer-move of any event sequence —
including pointer positions far outside the container — the guide's left
stays in [0, cWi − eWi] and its top in [0, cHe − eHe], the container
extents minus the guide extents captured at drag start. -/
theorem C4_drag_position_clamped (opts : RulerOption) (env : DragEnv)
    (s0 : GuideState) (evts : List MouseEvt)
    (hW : 0 ≤ env.cWi - env.eWi) (hH : 0 ≤ env.cHe - env.eHe) :
    ∀ s ∈ (List.scanl (onDocMouseMove opts env) s0 evts).tail,
      (0 ≤ s.left ∧ s.left ≤ env.cWi - env.eWi) ∧
        (0 ≤ s.top ∧ s.top ≤ env.cHe - env.eHe) := by
  have hstep : ∀ (s : GuideState) (e : MouseEvt),
      (0 ≤ (onDocMouseMove opts env s e).left ∧
          (onDocMouseMove opts env s e).left ≤ env.cWi - env.eWi) ∧
        (0 ≤ (onDocMouseMove opts env s e).top ∧
          (onDocMouseMove opts env s e).top ≤ env.cHe - env.eHe) := by
    intro s e
    refine ⟨⟨?_, ?_⟩, ?_, ?_⟩
    · exact le_min (le_max_right _ _) hW
    · exact min_le_right _ _
    · exact le_min (le_max_right _ _) hH
    · exact min_le_right _ _
  cases evts with
  | nil =>
      intro s hs
      rw [List.scanl] at hs
      simp at hs
  | cons e rest =>
      intro s hs
      rw [List.scanl] at hs
      exact mem_scanl_imp (onDocMouseMove opts env)
        (fun t => (0 ≤ t.left ∧ t.left ≤ env.cWi - env.eWi) ∧
          (0 ≤ t.top ∧ t.top ≤ env.cHe - env.eHe))
        hstep rest (onDocMouseMove opts env s0 e) (hstep s0 e) s hs

/-- C4 witness: one wild pointer move (500, -300) in a 100 by 100
container with a 10 by 10 guide lands inside the bounds. -/
theorem C4_drag_position_clamped_witness :
    (0 ≤ (onDocMouseMove defaultOptions ⟨0, 0, 100, 100, 10, 10⟩
        (newGuideNode 0 true) ⟨500, -300⟩).left ∧
      (onDocMouseMove defaultOptions ⟨0, 0, 100, 100, 10, 10⟩
        (newGuideNode 0 true) ⟨500, -300⟩).left ≤ (100 : ℚ) - 10) ∧
    (0 ≤ (onDocMouseMove defaultOptions ⟨0, 0, 100, 100, 10, 10⟩
        (newGuideNode 0 true) ⟨500, -300⟩).top ∧
      (onDocMouseMove defaultOptions ⟨0, 0, 100, 100, 10, 10⟩
        (newGuideNode 0 true) ⟨500, -300⟩).top ≤ (100 : ℚ) - 10) :=
  C4_drag_position_clamped defaultOptions ⟨0, 0, 100, 100, 10, 10⟩
    (newGuideNode 0 true) [⟨500, -300⟩] (by norm_num) (by norm_num)
    (onDocMouseMove defaultOptions ⟨0, 0, 100, 100, 10, 10⟩
      (newGuideNode 0 true) ⟨500, -300⟩) (by simp [List.scanl])

/-- C6 counterexample: with thickness 0, offset 0, scale 2 and tooltips
enabled, a pointer move whose clamped position is y = 10 writes tooltip
value round((10 − 0 − 1 − 0) × 2) = 18, while the claim's formula
floor((10 − 0 − 0) / 2) gives 5 — the code multiplies by scale and
subtracts one extra pixel instead of dividing. -/
theorem C6_tooltip_not_toLogical :
    (onDocMouseMove c6opts c6env (newGuideNode 0 true) ⟨0, 10⟩).tip = some ⟨true, 18⟩ ∧
      (18 : ℤ) ≠ ⌊((10 : ℚ) - c6opts.rulerHeight - c6opts.offset) / c6opts.scale⌋ := by
  constructor
  · have h1 : (onDocMouseMove c6opts c6env (newGuideNode 0 true) ⟨0, 10⟩).tip =
        some (updateToolTip c6opts 0 10) := by
      simp [onDocMouseMove, c6env]
      norm_num
    rw [h1]
    have h2 : updateToolTip c6opts 0 10 = ⟨true, 18⟩ := by
      unfold updateToolTip
      rw [if_pos (by norm_num)]
      simp only [c6opts, defaultOptions]
      norm_num [round_eq]
    rw [h2]
  · simp only [c6opts, defaultOptions]
    norm_num

/-- C6 amended: while dragging, each pointer move sets the tooltip to
`round((clampedPos − rulerHeight − 1 − offset) × scale)`, using the
clamped y when it is non-zero (Y label) and the clamped x when the
clamped y is zero (X label) — a multiplication by scale with an extra
1-pixel adjustment, not the floor division getPos performs. -/
theorem C6_tooltip_value (opts : RulerOption) (env : DragEnv) (s : GuideState)
    (evt : MouseEvt) :
    (min (max (evt.clientY - env.diffY) 0) (env.cHe - env.eHe) ≠ 0 →
      (onDocMouseMove opts env s evt).tip =
        some ⟨true, round ((min (max (evt.clientY - env.diffY) 0) (env.cHe - env.eHe) -
          opts.rulerHeight - 1 - opts.offset) * opts.scale)⟩) ∧
    (min (max (evt.clientY - env.diffY) 0) (env.cHe - env.eHe) = 0 →
      (onDocMouseMove opts env s evt).tip =
        some ⟨false, round ((min (max (evt.clientX - env.diffX) 0) (env.cWi - env.eWi) -
          opts.rulerHeight - 1 - opts.offset) * opts.scale)⟩) := by
  constructor
  · intro hY
    unfold onDocMouseMove updateToolTip
    simp only [if_pos hY]
  · intro hY
    unfold onDocMouseMove updateToolTip
    simp only [if_neg
      (show ¬(min (max (evt.clientY - env.diffY) 0) (env.cHe - env.eHe) ≠ 0) from
        fun h => h hY)]

/-- C6 witness: the amended tooltip formula evaluated on both branches —
a drag with vertical play (clamped y = 10, Y label) and a drag with no
vertical play (clamped y = 0, X label). -/
theorem C6_tooltip_value_witness :
    (onDocMouseMove c6opts c6env (newGuideNode 0 true) ⟨0, 10⟩).tip =
      some ⟨true, round ((min (max ((10 : ℚ) - c6env.diffY) 0) (c6env.cHe - c6env.eHe) -
        c6opts.rulerHeight - 1 - c6opts.offset) * c6opts.scale)⟩ ∧
    (onDocMouseMove c6opts c6envX (newGuideNode 0 true) ⟨10, 5⟩).tip =
      some ⟨false, round ((min (max ((10 : ℚ) - c6envX.diffX) 0) (c6envX.cWi - c6envX.eWi) -
        c6opts.rulerHeight - 1 - c6opts.offset) * c6opts.scale)⟩ :=
  ⟨(C6_tooltip_value c6opts c6env (newGuideNode 0 true) ⟨0, 10⟩).1 (by norm_num [c6env]),
   (C6_tooltip_value c6opts c6envX (newGuideNode 0 true) ⟨10, 5⟩).2 (by norm_num [c6envX])⟩

/-- C10: the GuideLine constructor immediately calls startMoving with the
originating pointer-down event: right after construction the dragged
styling is applied and the document-level move closure is installed (with
the geometry captured at that moment), before any event on the guide node
itself. -/
theorem C10_constructor_starts_dragging (opts : RulerOption) (cWi cHe eWi eHe : ℚ)
    (s : GuideState) (e : MouseEvt) :
    (guideLineConstructor opts cWi cHe eWi eHe s e).dragged = true ∧
      (guideLineConstructor opts cWi cHe eWi eHe s e).docMouseMove =
        some ⟨e.clientX - s.left, e.clientY - s.top, cWi, cHe, eWi, eHe⟩ := by
  unfold guideLineConstructor startMoving showToolTip
  by_cases h : opts.enableToolTip <;> simp [h]

/-- Destroying a guide whose node still has its three listeners and a
parent succeeds and yields the stopped state with no listeners and no
parent. -/
theorem destroy_of_standard (s : GuideState)
    (hl : s.listeners = [GEvt.mousedown, GEvt.mouseup, GEvt.dblclick])
    (hin : s.inTree = true) :
    destroy s = Except.ok { stopMoving s with listeners := [], inTree := false } := by
  have herase :
      ((([GEvt.mousedown, GEvt.mouseup, GEvt.dblclick].erase GEvt.mousedown).erase
        GEvt.mouseup).erase GEvt.dblclick : List GEvt) = [] := by decide
  have h1 : (stopMoving s).listeners = [GEvt.mousedown, GEvt.mouseup, GEvt.dblclick] := hl
  have h2 : (stopMoving s).inTree = true := hin
  simp only [destroy, removeChildFromParent, h1, herase, h2]
  simp [stopMoving]

/-- C9: destroying a freshly constructed GuideLine succeeds, leaves zero
listeners on the node and removes it from the tree; a second destroy on
the result raises no error and is a no-op (the removeChild guard never
touches the absent node); and the movement-handler detach performed by
stopMoving is a silent no-op when repeated. -/
theorem C9_destroy_idempotent :
    (∀ s : GuideState, stopMoving (stopMoving s) = stopMoving s) ∧
      ∀ (opts : RulerOption) (cWi cHe eWi eHe d : ℚ) (dir : Bool) (e : MouseEvt),
        ∃ t : GuideState,
          destroy (guideLineConstructor opts cWi cHe eWi eHe (newGuideNode d dir) e) =
              Except.ok t ∧
            t.listeners = [] ∧ t.inTree = false ∧ destroy t = Except.ok t := by
  constructor
  · intro s
    rfl
  · intro opts cWi cHe eWi eHe d dir e
    set g := guideLineConstructor opts cWi cHe eWi eHe (newGuideNode d dir) e with hg
    have hl : g.listeners = [GEvt.mousedown, GEvt.mouseup, GEvt.dblclick] := by
      rw [hg]
      unfold guideLineConstructor startMoving showToolTip newGuideNode
      by_cases h : opts.enableToolTip <;> simp [h]
    have hin : g.inTree = true := by
      rw [hg]
      unfold guideLineConstructor startMoving showToolTip newGuideNode
      by_cases h : opts.enableToolTip <;> simp [h]
    refine ⟨{ stopMoving g with listeners := [], inTree := false },
      destroy_of_standard g hl hin, rfl, rfl, ?_⟩
    rfl

/-- C5: evaluating constructGuide at a pointer-down shows the bug the
claim exposes — one .ruler-line node is created and appended, but no
GuideLine is entered into the guides collection (the construction and the
push are commented out at source lines 344-345), so a subsequent
clearGuides leaves the appended node untouched. -/
theorem C5_constructGuide_skips_ownership (st : BuilderState) (devicePos : ℚ) :
    (constructGuide st devicePos).guides = st.guides ∧
      (constructGuide st devicePos).looseNodes.length = st.looseNodes.length + 1 ∧
      (clearGuides (constructGuide st devicePos)).looseNodes =
        (constructGuide st devicePos).looseNodes ∧
      (clearGuides (constructGuide st devicePos)).guides = [] := by
  refine ⟨rfl, ?_, rfl, rfl⟩
  simp [constructGuide]

/-- C7 counterexample: setScale(-1) on a freshly constructed builder is
not rejected — options.scale becomes -1 although the previous valid value
was 1 — and setSize(100, -5, 0) likewise stores thickness -5 and scale 0. -/
theorem C7_setters_accept_invalid :
    (setScale builder0 (-1)).options.scale = -1 ∧
      builder0.options.scale = 1 ∧
      (setSize builder0 100 (-5) 0).options.rulerHeight = -5 ∧
      (setSize builder0 100 (-5) 0).options.scale = 0 ∧
      ¬((-1 : ℚ) > 0) := by
  refine ⟨rfl, rfl, rfl, rfl, by norm_num⟩

/-- C7 amended: setScale and setSize perform no validation at all — any
scale (including scale ≤ 0) and any thickness (including negative) are
stored unconditionally, the geometry is recomputed from the new values,
the ticks are redrawn, and no error is surfaced; the other options and
the guides are untouched. -/
theorem C7_setters_unvalidated (st : BuilderState) (w h s sc : ℚ) :
    (setScale st sc).options.scale = sc ∧
      (setScale st sc).options.offset = st.options.offset ∧
      (setScale st sc).options.rulerWidth = st.options.rulerWidth ∧
      (setScale st sc).options.rulerHeight = st.options.rulerHeight ∧
      (setScale st sc).guides = st.guides ∧
      (setSize st w h s).options.rulerWidth = w ∧
      (setSize st w h s).options.rulerHeight = h ∧
      (setSize st w h s).options.scale = s ∧
      (setSize st w h s).rulerH = h ∧
      (setSize st w h s).rulerW = max (hostExtent st) w ∧
      (setSize st w h s).guides = st.guides := by
  refine ⟨rfl, rfl, rfl, rfl, rfl, rfl, rfl, rfl, rfl, ?_, rfl⟩
  simp [setSize, hostExtent]

/-- C8 counterexample: after RulerBuilder.destroy on a freshly built
surface, the canvas still has its mouseenter and mousedown listeners —
the removeEventListener calls pass freshly bound functions, which match
nothing, so the listener count is not zero. -/
theorem C8_destroy_leaves_listeners :
    (destroyBuilder builder0).enterListeners.length = 1 ∧
      (destroyBuilder builder0).downListeners.length = 1 ∧ (1 : ℕ) ≠ 0 := by
  refine ⟨?_, ?_, by decide⟩
  · simp [destroyBuilder, clearGuides, builder0, constructRuler, initialBuilder]
  · simp [destroyBuilder, clearGuides, builder0, constructRuler, initialBuilder]

/-- C8 amended: destroy clears all guides and removes the container from
the host tree, but the surface-level listener detachment silently fails:
because the removeEventListener arguments are freshly created bound
methods, distinct from every identity attached earlier, both listener
lists are left exactly as they were. -/
theorem C8_destroy_detach_is_noop (st : BuilderState) (hf : listenersFresh st) :
    (destroyBuilder st).enterListeners = st.enterListeners ∧
      (destroyBuilder st).downListeners = st.downListeners ∧
      (destroyBuilder st).guides = [] ∧
      (destroyBuilder st).elAttached = false := by
  obtain ⟨he, hd⟩ := hf
  refine ⟨?_, ?_, rfl, rfl⟩
  · exact List.erase_of_not_mem fun hmem => lt_irrefl _ (he _ hmem)
  · exact List.erase_of_not_mem fun hmem => by
      have h1 := hd _ hmem
      have h0 : (clearGuides st).bindCounter = st.bindCounter := rfl
      omega

/-- C8 witness: the detachment no-op on the freshly built surface. -/
theorem C8_destroy_detach_is_noop_witness :
    (destroyBuilder builder0).enterListeners = builder0.enterListeners ∧
      (destroyBuilder builder0).downListeners = builder0.downListeners ∧
      (destroyBuilder builder0).guides = [] ∧
      (destroyBuilder builder0).elAttached = false :=
  C8_destroy_detach_is_noop builder0
    (by
      constructor <;>
        · intro i hi
          simp [builder0, constructRuler, initialBuilder] at hi ⊢
          omega)

end Ruler
